import Mathlib

/-
Verification of the control logic of
`openfasoc/generators/glayout/glayout/llm/train_and_run.py`:
model-key resolution (`load_model_and_tokenizer`), training collator
selection (`run_full_SFT_training`), checkpoint discovery and loading
(`GlayoutLLMSessionHandler.__init__`, `load_model_from_checkpoint`), and the
conversation session state machine (`clear_history`, `generate`).

External collaborators (the transformers/peft model and tokenizer, and the
RAG vector database) are modelled as opaque capabilities, following the
spec's component boundary: only the control flow of this file is embedded.
-/

namespace TrainAndRun

/-- Substring containment on lists of characters: `containsSub s pat` is true
iff `pat` occurs contiguously inside `s`.  Used to model Python's `in`
operator on strings and the `*marker*` glob pattern. -/
def containsSub : List Char → List Char → Bool
  | [], pat => pat.isEmpty
  | c :: tail, pat => pat.isPrefixOf (c :: tail) || containsSub tail pat

/-- String-level wrapper for `containsSub` (Python `pat in s`). -/
def strContains (s pat : String) : Bool :=
  containsSub s.data pat.data

/-- Python's `s.strip().lower()`: drop whitespace from both ends, then map
every character to lower case. -/
def strip_lower (s : String) : String :=
  ⟨(((s.data.dropWhile Char.isWhitespace).reverse.dropWhile
      Char.isWhitespace).reverse).map Char.toLower⟩

/-! ## Model catalog (`load_model_and_tokenizer`, lines 68-81)

The head of `load_model_and_tokenizer` normalizes the requested model size
with `model.strip().lower()` and maps it to a huggingface model name plus a
list of LoRA adapter target modules, raising `ValueError` on anything else.
We embed that key-resolution logic; the resolved pair is the
`ModelDescriptor` of the spec. -/

/-- The data resolved from a recognized model key: the huggingface model name
and the LoRA `target_modules` list attached to it. -/
structure ModelDescriptor where
  modelname : String
  target_modules : List String
deriving DecidableEq, Repr

/-- Key resolution performed at the top of `load_model_and_tokenizer`
(`model = model.strip().lower()` followed by the 3b/7b/22b dispatch);
`none` models the `ValueError` raised for an unrecognized key. -/
def resolve_model_key (model : String) : Option ModelDescriptor :=
  if strip_lower model = "3b" then
    some { modelname := "microsoft/Phi-3-mini-128k-instruct",
           target_modules := ["qkv_proj"] }
  else if strip_lower model = "7b" then
    some { modelname := "mistralai/Mistral-7B-Instruct-v0.3",
           target_modules := ["q_proj", "k_proj", "v_proj"] }
  else if strip_lower model = "22b" then
    some { modelname := "mistralai/Codestral-22B-v0.1",
           target_modules := ["q_proj", "k_proj", "v_proj"] }
  else
    none

/-- The module-level family flags set as a side effect of
`load_model_and_tokenizer`: `microsoft_model = "microsoft" in modelname` and
`mistral_model = "mistral" in modelname` (lines 82-85). -/
def set_family_flags (modelname : String) : Bool × Bool :=
  (strContains modelname "microsoft", strContains modelname "mistral")

/-! ## Collator selection (`run_full_SFT_training`, lines 273-278) -/

/-- The arguments with which `run_full_SFT_training` constructs its
`DataCollatorForCompletionOnlyLM`: the response and instruction delimiter
templates. -/
structure CollatorSpec where
  response_template : String
  instruction_template : String
deriving DecidableEq, Repr

/-- The collator dispatch of `run_full_SFT_training`: keyed on the
`microsoft_model` / `mistral_model` global flags, with `ValueError`
(modelled as `none`) when neither flag is set. -/
def select_data_collator (microsoft_model : Bool) (mistral_model : Bool) :
    Option CollatorSpec :=
  if microsoft_model then
    some { response_template := "<|assistant|>", instruction_template := "<|user|>" }
  else if mistral_model then
    some { response_template := "[/INST]", instruction_template := "[INST]" }
  else
    none

/-! ## Checkpoint discovery (`GlayoutLLMSessionHandler.__init__`, lines 314-327)

`__init__` runs `base_path.glob("**/*checkpoint-bestperf*")`, which yields, in
traversal order, every filesystem entry (file or directory, at any depth)
whose final name component contains the marker `checkpoint-bestperf`.  The
filesystem is modelled as the list of entries the glob walk visits, each
carrying its name and whether it is a directory. -/

/-- A filesystem entry as seen by the glob walk: the final path-component
name and the result of `is_dir()`. -/
structure FsEntry where
  name : String
  is_dir : Bool
deriving DecidableEq, Repr

/-- The glob match list `checkpoint_dirs = list(base_path.glob("**/*checkpoint-bestperf*"))`:
the entries, in traversal order, whose name contains the marker. -/
def checkpoint_glob (entries : List FsEntry) : List FsEntry :=
  entries.filter (fun e => strContains e.name "checkpoint-bestperf")

/-- Checkpoint selection (lines 316-318):
`if len(checkpoint_dirs) > 0 and checkpoint_dirs[-1].is_dir(): checkpoint_dir = checkpoint_dirs[-1]`,
with `checkpoint_dir` left as `None` otherwise. -/
def discover_checkpoint (entries : List FsEntry) : Option FsEntry :=
  match (checkpoint_glob entries).getLast? with
  | some last => if last.is_dir then some last else none
  | none => none

/-- Which way construction obtains its model (lines 320-327): load the
discovered checkpoint, or fall back to `run_full_SFT_training`. -/
inductive ModelSource where
  | fromCheckpoint (dir : FsEntry)
  | trainedFresh
deriving DecidableEq, Repr

/-- The load-versus-train decision of `__init__`: a discovered checkpoint is
loaded, otherwise the full SFT training pipeline is invoked. -/
def construct_model_source (entries : List FsEntry) : ModelSource :=
  match discover_checkpoint entries with
  | some d => ModelSource.fromCheckpoint d
  | none => ModelSource.trainedFresh

/-! ## Checkpoint loading (`load_model_from_checkpoint`, lines 352-374) -/

/-- The helper `get_base_model_name_or_path` inside
`load_model_from_checkpoint`: reads the parsed `adapter_config.json` object
(modelled as an association list of its string fields) and returns
`data.get("base_model_name_or_path")` — `none` when the field is absent,
with no error raised. -/
def get_base_model_name_or_path (data : List (String × String)) : Option String :=
  List.lookup "base_model_name_or_path" data

/-- The two external `from_pretrained` loaders used by
`load_model_from_checkpoint`, modelled as opaque capabilities returning
handles: `AutoPeftModelForCausalLM.from_pretrained` on the checkpoint
directory, and `AutoTokenizer.from_pretrained` on the base-model identifier
it is handed (an `Option String`, since the source can hand it `None`). -/
structure LoaderOracle where
  peft_from_pretrained : String → Nat
  tokenizer_from_pretrained : Option String → Nat

/-- `load_model_from_checkpoint`: restores the adapter model from the
checkpoint directory, reads `model_id` from the sidecar
`adapter_config.json` via `get_base_model_name_or_path`, and builds the
tokenizer from that identifier, returning the `(model, tokenizer)` pair.
The source performs no check on `model_id`: whatever
`get_base_model_name_or_path` returns — including `None` — is passed
directly to the tokenizer loader. -/
def load_model_from_checkpoint (L : LoaderOracle) (checkpoint_dir : String)
    (adapter_config : List (String × String)) : Nat × Nat :=
  let model := L.peft_from_pretrained checkpoint_dir
  let model_id := get_base_model_name_or_path adapter_config
  let tokenizer := L.tokenizer_from_pretrained model_id
  (model, tokenizer)

/-! ## Conversation session (`GlayoutLLMSessionHandler`, lines 300-420)

The session's external collaborators — the RAG vector database and the
model/tokenizer pair — are opaque capabilities per the spec's component
boundary.  Chat history is a list of role-tagged messages. -/

/-- Message roles used in the chat history. -/
inductive Role where
  | user
  | assistant
deriving DecidableEq, Repr

/-- One chat-history entry `{"role": ..., "content": ...}`. -/
structure ChatMessage where
  role : Role
  content : String
deriving DecidableEq, Repr

/-- Opaque collaborators of the session.
`rag_query` — Modelled from the spec: `RAGdb.query` (glayout/llm/rag.py, not
under src/) is the external Retriever; the source consumes only
`query(user_input, k=1)[0]` and tests it against `None`, so it is modelled
as the top-1 result, `none` meaning no result.
`apply_chat_template` renders a chat history to a token sequence;
`model_generate` is the model's bounded generation capability, taking the
input tokens and the `max_new_tokens` budget and returning the full output
row, with `none` modelling a raised exception; `decode` maps a token span
and the `skip_special_tokens` flag to text. -/
structure LLMOracle where
  rag_query : String → Option String
  apply_chat_template : List ChatMessage → List Nat
  model_generate : List Nat → Nat → Option (List Nat)
  decode : List Nat → Bool → String

/-- Modelled from the spec: `get_glayout_context` (glayout/llm/manage_data.py,
not under src/) returns the fixed domain-context text used to seed the chat
history; its exact wording is irrelevant to every claim, so it is modelled
as an abstract constant string. -/
def get_glayout_context : String :=
  "<glayout domain context>"

/-- The module-level constant `RESPONSE` (line 423): the fixed synthetic
assistant acknowledgment seeding the history. -/
def RESPONSE : String :=
  "Thank you for providing the detailed context on Glayout strict syntax. I now have a foundational understanding of the commands. You can prompt me with specific requests to create circuits, and I will be able to write the Glayout strict syntax commands for you."

/-- The mutable session attributes: the `converse_mode` flag fixed at
construction, the chat history, the `pastfirst` first-turn flag, and the
opaque handles to the loaded model and tokenizer (which history operations
never touch). -/
structure SessionState where
  converse_mode : Bool
  chat_history : List ChatMessage
  pastfirst : Bool
  model : Nat
  tokenizer : Nat
deriving DecidableEq, Repr

/-- `clear_history` (lines 336-350): empties the history; when
`converse_mode` is off, clears `pastfirst` and seeds the history with the
synthetic domain-context user message and the fixed assistant `RESPONSE`;
when `converse_mode` is on, sets `pastfirst` and leaves the history empty.
The model and tokenizer handles are untouched. -/
def clear_history (s : SessionState) : SessionState :=
  if !s.converse_mode then
    { s with
      chat_history := [{ role := Role.user, content := get_glayout_context },
                       { role := Role.assistant, content := RESPONSE }],
      pastfirst := false }
  else
    { s with chat_history := [], pastfirst := true }

/-- The conversation-state initialization of `__init__` (lines 309 and 332):
records `converse_mode` and the loaded model/tokenizer handles, then calls
`self.clear_history()` to seed the history and the first-turn flag. -/
def init_session (converse_mode : Bool) (model tokenizer : Nat) : SessionState :=
  clear_history
    { converse_mode := converse_mode, chat_history := [], pastfirst := false,
      model := model, tokenizer := tokenizer }

/-- The first-turn prompt construction inside `generate` (lines 390-398):
the fixed domain preamble, then — when the RAG query returns a non-null
top-1 result — the explanatory context block with that result, then the
conversion instruction wrapping the user input. -/
def first_prompt (O : LLMOracle) (user_input : String) : String :=
  let fp := "Glayout strictsyntax is a electronic circuit layout command language.\n"
  let fp :=
    match O.rag_query user_input with
    | some rag_content =>
        fp ++ "The following is more specific context. This is only useful if it is related to the circuit the user is requesting below.\n"
           ++ rag_content ++ "\n"
    | none => fp
  fp ++ "Convert the following prompt to Glayout strictsyntax:\n" ++ user_input

/-- The prompt actually appended as the user message of a turn
(lines 388-398): the augmented first-turn prompt while `pastfirst` is
unset, the raw user input afterwards. -/
def full_prompt (O : LLMOracle) (s : SessionState) (user_input : String) : String :=
  if !s.pastfirst then first_prompt O user_input else user_input

/-- `generate` (lines 376-415): builds the turn's prompt (setting
`pastfirst` on the first turn, before generation runs), appends the user
message, renders the whole history through the chat template, and invokes
the model with a `max_new_tokens` budget of 1024.  If generation raises
(modelled by `model_generate` returning `none`) the call ends there, with
the user message already appended and `pastfirst` already set.  On success
it decodes the output row from just past the input length up to but
excluding the final token position (`outputs[0][len(inputs[0]) : -1]`),
keeping special tokens (`skip_special_tokens=False`), appends the assistant
message and returns the response. -/
def generate (O : LLMOracle) (s : SessionState) (user_input : String) :
    Option String × SessionState :=
  let fp := full_prompt O s user_input
  let pastfirst := if !s.pastfirst then true else s.pastfirst
  let chat_history := s.chat_history ++ [{ role := Role.user, content := fp }]
  let inputs := O.apply_chat_template chat_history
  match O.model_generate inputs 1024 with
  | none => (none, { s with pastfirst := pastfirst, chat_history := chat_history })
  | some outputs =>
      let response := O.decode ((outputs.drop inputs.length).dropLast) false
      (some response,
       { s with pastfirst := pastfirst,
                chat_history := chat_history ++ [{ role := Role.assistant, content := response }] })

/-- `run_llm_normal` with an explicit `max_new_tokens` argument
(lines 123-144): renders the single user message through the chat template,
generates with the given budget, and decodes the whole output row with
special tokens stripped (`skip_special_tokens=True`). -/
def run_llm_normal_with (O : LLMOracle) (prompt : String) (max_new_tokens : Nat) :
    Option String :=
  let inputs := O.apply_chat_template [{ role := Role.user, content := prompt }]
  match O.model_generate inputs max_new_tokens with
  | none => none
  | some outputs => some (O.decode outputs true)

/-- `run_llm_normal` at its default budget: the signature fixes
`max_new_tokens: int = 1000`. -/
def run_llm_normal (O : LLMOracle) (prompt : String) : Option String :=
  run_llm_normal_with O prompt 1000

/-- One session operation: a `generate` turn (with the collaborators in
force for that call) or a `clear_history` reset. -/
inductive SessionOp where
  | gen (O : LLMOracle) (user_input : String)
  | reset

/-- Whether an operation is a `generate` turn. -/
def SessionOp.isGen : SessionOp → Bool
  | SessionOp.gen _ _ => true
  | SessionOp.reset => false

/-- State transition of one session operation (the state effect of
`generate`, discarding the returned text, or of `clear_history`). -/
def step (s : SessionState) : SessionOp → SessionState
  | SessionOp.gen O user_input => (generate O s user_input).2
  | SessionOp.reset => clear_history s

/-- Run a sequence of session operations from a state. -/
def run_ops (s : SessionState) (ops : List SessionOp) : SessionState :=
  ops.foldl step s

/-! ## Concrete collaborator instances used to evaluate the theorems -/

/-- A loader pair whose tokenizer side records whether it was handed a null
base-model identifier: handle 0 for `none`, handle 1 for a present id. -/
def L_probe : LoaderOracle :=
  { peft_from_pretrained := fun _ => 7,
    tokenizer_from_pretrained := fun o => match o with | none => 0 | some _ => 1 }

/-- Collaborators for a working turn: the retriever knows `"inverter"`
(top-1 result `"ctx-A"`), the template renders a history of `n` messages as
`n` zero tokens, generation extends its input row by two tokens, and decode
reports which span and flag it received. -/
def O_ok : LLMOracle :=
  { rag_query := fun q => if q = "inverter" then some "ctx-A" else none,
    apply_chat_template := fun h => List.replicate h.length 0,
    model_generate := fun ins _ => some (ins ++ [1, 2]),
    decode := fun span skip => if skip then "plain" else if span = [1] then "ok" else "resp" }

/-- Collaborators for a failing turn: the retriever finds nothing and the
model's generation capability always raises. -/
def O_fail : LLMOracle :=
  { rag_query := fun _ => none,
    apply_chat_template := fun h => List.replicate h.length 0,
    model_generate := fun _ _ => none,
    decode := fun _ _ => "" }

/-- A freshly constructed session with `converse_mode=False`: seeded
two-message history, `pastfirst` unset. -/
def s_fresh : SessionState :=
  init_session false 0 0

/-- A freshly constructed session with `converse_mode=True`: empty history,
`pastfirst` set. -/
def s_conv : SessionState :=
  init_session true 0 0

/-! ## Theorems -/

/-- After any `generate` call the first-turn flag is set: the flag is raised
in the first-turn branch (before generation runs) and left `true` otherwise. -/
theorem generate_snd_pastfirst (O : LLMOracle) (s : SessionState) (u : String) :
    ((generate O s u).2).pastfirst = true := by
  simp only [generate]
  split <;> cases hpf : s.pastfirst <;> simp [hpf]

/-- `generate` never changes `converse_mode`. -/
theorem generate_snd_converse (O : LLMOracle) (s : SessionState) (u : String) :
    ((generate O s u).2).converse_mode = s.converse_mode := by
  simp only [generate]
  split <;> rfl

/-- The first `old length + 1` entries of the post-`generate` history are the
old history followed by exactly the appended user message. -/
theorem generate_snd_history_take (O : LLMOracle) (s : SessionState) (u : String) :
    ((generate O s u).2).chat_history.take (s.chat_history.length + 1) =
      s.chat_history ++ [{ role := Role.user, content := full_prompt O s u }] := by
  simp only [generate]
  split
  · exact List.take_of_length_le (by simp)
  · exact List.take_left' (by simp)

/-- Dropping `n` then the last element equals keeping everything but the last
element and then dropping `n`. -/
theorem dropLast_drop_eq {α : Type _} (l : List α) (n : Nat) :
    (l.drop n).dropLast = (l.take (l.length - 1)).drop n := by
  rw [List.dropLast_eq_take, List.length_drop, List.drop_take]
  congr 1
  omega

/-- C4: for every recognized model key (the three catalog entries, after the
`strip().lower()` normalization of the input), key resolution returns a
descriptor whose adapter-target list is non-empty; the 3b entry's target
list differs from each of the other two entries' lists both in cardinality
and in names (the catalog stores per-entry lists); every unrecognized key
fails with the `ValueError` (modelled as `none`). -/
theorem C4_model_catalog_resolve :
    (∀ k : String,
        strip_lower k = "3b" ∨ strip_lower k = "7b" ∨ strip_lower k = "22b" →
        ∃ d : ModelDescriptor, resolve_model_key k = some d ∧ d.target_modules ≠ []) ∧
    (∃ d3 d7 d22 : ModelDescriptor,
        resolve_model_key "3b" = some d3 ∧
        resolve_model_key "7b" = some d7 ∧
        resolve_model_key "22b" = some d22 ∧
        d3.target_modules.length ≠ d7.target_modules.length ∧
        d3.target_modules.length ≠ d22.target_modules.length ∧
        (∀ t ∈ d3.target_modules, t ∉ d7.target_modules) ∧
        (∀ t ∈ d3.target_modules, t ∉ d22.target_modules)) ∧
    (∀ k : String,
        strip_lower k ≠ "3b" → strip_lower k ≠ "7b" → strip_lower k ≠ "22b" →
        resolve_model_key k = none) := by
  refine ⟨?_, ?_, ?_⟩
  · intro k hk
    rcases hk with h | h | h <;>
      · unfold resolve_model_key
        simp [h]
  · refine ⟨{ modelname := "microsoft/Phi-3-mini-128k-instruct",
              target_modules := ["qkv_proj"] },
            { modelname := "mistralai/Mistral-7B-Instruct-v0.3",
              target_modules := ["q_proj", "k_proj", "v_proj"] },
            { modelname := "mistralai/Codestral-22B-v0.1",
              target_modules := ["q_proj", "k_proj", "v_proj"] },
            by decide, by decide, by decide, by decide, by decide, by decide, by decide⟩
  · intro k h3 h7 h22
    unfold resolve_model_key
    rw [if_neg h3, if_neg h7, if_neg h22]

/-- C4 witness: the recognized key `" 3B "` (exercising whitespace and case
normalization) resolves to a descriptor with non-empty adapter targets, and
the unrecognized key `"13b"` fails. -/
theorem C4_witness :
    (∃ d : ModelDescriptor, resolve_model_key " 3B " = some d ∧ d.target_modules ≠ []) ∧
    resolve_model_key "13b" = none :=
  ⟨C4_model_catalog_resolve.1 " 3B " (Or.inl (by decide)),
   C4_model_catalog_resolve.2.2 "13b" (by decide) (by decide) (by decide)⟩

/-- C5: the collator dispatch of `run_full_SFT_training` yields, for the
microsoft (phi) family, the fixed `<|assistant|>` / `<|user|>` delimiter
pair; for the mistral family, the fixed `[/INST]` / `[INST]` pair; and for
any other family value it fails with the `ValueError` (modelled as `none`)
rather than choosing a collator by best effort.  The family flags computed
from each catalog entry's model name select exactly one of the two
recognized families. -/
theorem C5_collator_by_family :
    (∀ b : Bool, select_data_collator true b =
        some { response_template := "<|assistant|>", instruction_template := "<|user|>" }) ∧
    select_data_collator false true =
        some { response_template := "[/INST]", instruction_template := "[INST]" } ∧
    select_data_collator false false = none ∧
    set_family_flags "microsoft/Phi-3-mini-128k-instruct" = (true, false) ∧
    set_family_flags "mistralai/Mistral-7B-Instruct-v0.3" = (false, true) ∧
    set_family_flags "mistralai/Codestral-22B-v0.1" = (false, true) :=
  ⟨fun _ => rfl, rfl, rfl, by decide, by decide, by decide⟩

/-- C1 counterexample: with a model whose generation capability raises, a
`generate` call on a fresh non-converse session fails, yet the chat history
has grown (by the already-appended user message): the claim that a failed
call leaves `len(history)` unchanged is false of the code, which appends the
user message before invoking generation. -/
theorem C1_counterexample :
    (generate O_fail s_fresh "an inverter").1 = none ∧
    ((generate O_fail s_fresh "an inverter").2).chat_history.length ≠
      s_fresh.chat_history.length := by
  decide

/-- C1 (amended): every successful `generate` call appends exactly the turn's
user message followed by the assistant response — `len(history)` grows by
exactly 2 — while a call whose generation step raises leaves the history
grown by exactly 1, the already-appended unanswered user message (not
unchanged, as claimed). -/
theorem C1_history_growth (O : LLMOracle) (s : SessionState) (u : String) :
    (∀ r, (generate O s u).1 = some r →
      ((generate O s u).2).chat_history =
        s.chat_history ++ [{ role := Role.user, content := full_prompt O s u },
                           { role := Role.assistant, content := r }]) ∧
    ((generate O s u).1 = none →
      ((generate O s u).2).chat_history =
        s.chat_history ++ [{ role := Role.user, content := full_prompt O s u }]) ∧
    ((generate O s u).1.isSome = true →
      ((generate O s u).2).chat_history.length = s.chat_history.length + 2) ∧
    ((generate O s u).1 = none →
      ((generate O s u).2).chat_history.length = s.chat_history.length + 1) := by
  simp only [generate]
  split <;> simp_all

/-- C1 witness: a successful turn on a converse-mode session grows the
history from 0 to 2 entries; a failing turn grows it from 0 to 1. -/
theorem C1_witness :
    ((generate O_ok s_conv "hi").2).chat_history.length =
      s_conv.chat_history.length + 2 ∧
    ((generate O_fail s_conv "hi").2).chat_history.length =
      s_conv.chat_history.length + 1 :=
  ⟨(C1_history_growth O_ok s_conv "hi").2.2.1 (by decide),
   (C1_history_growth O_fail s_conv "hi").2.2.2 (by decide)⟩

/-- C2 counterexample: an `adapter_config.json` lacking
`base_model_name_or_path`: `get_base_model_name_or_path` returns `none`
(Python `dict.get` defaulting to `None`, not an error), and
`load_model_from_checkpoint` completes normally, handing the null identifier
to the tokenizer loader (the probe loader maps a null identifier to handle
0) — contradicting the claim that the load fails and never proceeds with a
null base-model identifier. -/
theorem C2_counterexample :
    get_base_model_name_or_path [("peft_type", "LORA")] = none ∧
    load_model_from_checkpoint L_probe "checkpoint-bestperf" [("peft_type", "LORA")] =
      (7, 0) := by
  decide

/-- C2 (amended): when the sidecar `adapter_config.json` exists but lacks
`base_model_name_or_path`, `load_model_from_checkpoint` does not fail: the
helper returns the null identifier (`None`) and the function proceeds,
passing it as-is to the tokenizer loader; when the field is present its
value is passed. -/
theorem C2_null_base_model_id (L : LoaderOracle) (dir : String)
    (cfg : List (String × String)) :
    (List.lookup "base_model_name_or_path" cfg = none →
      load_model_from_checkpoint L dir cfg =
        (L.peft_from_pretrained dir, L.tokenizer_from_pretrained none)) ∧
    (∀ v, List.lookup "base_model_name_or_path" cfg = some v →
      load_model_from_checkpoint L dir cfg =
        (L.peft_from_pretrained dir, L.tokenizer_from_pretrained (some v))) := by
  constructor
  · intro h
    simp [load_model_from_checkpoint, get_base_model_name_or_path, h]
  · intro v h
    simp [load_model_from_checkpoint, get_base_model_name_or_path, h]

/-- C2 witness: a config without the field makes the load proceed with the
null identifier; a config carrying the field passes its value through. -/
theorem C2_witness :
    load_model_from_checkpoint L_probe "ckpt" [("r", "8")] =
      (L_probe.peft_from_pretrained "ckpt", L_probe.tokenizer_from_pretrained none) ∧
    load_model_from_checkpoint L_probe "ckpt"
        [("base_model_name_or_path", "mistralai/Mistral-7B-Instruct-v0.3")] =
      (L_probe.peft_from_pretrained "ckpt",
       L_probe.tokenizer_from_pretrained (some "mistralai/Mistral-7B-Instruct-v0.3")) :=
  ⟨(C2_null_base_model_id L_probe "ckpt" [("r", "8")]).1 (by decide),
   (C2_null_base_model_id L_probe "ckpt"
      [("base_model_name_or_path", "mistralai/Mistral-7B-Instruct-v0.3")]).2
      "mistralai/Mistral-7B-Instruct-v0.3" (by decide)⟩

/-- C8 counterexample: a scan yielding exactly one name matching the
checkpoint marker, where that entry is a regular file, not a directory: the
claim selects it as the checkpoint to load, but the code (which additionally
requires `checkpoint_dirs[-1].is_dir()`) selects nothing and falls back to
training. -/
theorem C8_counterexample :
    checkpoint_glob [{ name := "checkpoint-bestperf", is_dir := false }] ≠ [] ∧
    construct_model_source [{ name := "checkpoint-bestperf", is_dir := false }] =
      ModelSource.trainedFresh := by
  decide

/-- C8 (amended): checkpoint discovery globs recursively for names containing
the marker; no match means training is invoked; when matches exist, the last
match in traversal order is selected if it is a directory, and when the last
match is not a directory no checkpoint is selected (training is invoked)
even though matches exist. -/
theorem C8_checkpoint_discovery :
    (∀ entries : List FsEntry, checkpoint_glob entries = [] →
        construct_model_source entries = ModelSource.trainedFresh) ∧
    (∀ (entries : List FsEntry) (last : FsEntry),
        (checkpoint_glob entries).getLast? = some last → last.is_dir = true →
        construct_model_source entries = ModelSource.fromCheckpoint last) ∧
    (∀ (entries : List FsEntry) (last : FsEntry),
        (checkpoint_glob entries).getLast? = some last → last.is_dir = false →
        construct_model_source entries = ModelSource.trainedFresh) := by
  refine ⟨?_, ?_, ?_⟩
  · intro entries h
    simp [construct_model_source, discover_checkpoint, h]
  · intro entries last h hd
    simp [construct_model_source, discover_checkpoint, h, hd]
  · intro entries last h hd
    simp [construct_model_source, discover_checkpoint, h, hd]

/-- C8 witness: an empty scan triggers training; with several matches whose
last is a directory, that last match is loaded; with a last match that is a
file, training is triggered despite an earlier directory match. -/
theorem C8_witness :
    construct_model_source [] = ModelSource.trainedFresh ∧
    construct_model_source
        [{ name := "rag_data", is_dir := true },
         { name := "checkpoint-bestperf", is_dir := true },
         { name := "old-checkpoint-bestperf", is_dir := true }] =
      ModelSource.fromCheckpoint { name := "old-checkpoint-bestperf", is_dir := true } ∧
    construct_model_source
        [{ name := "checkpoint-bestperf", is_dir := true },
         { name := "checkpoint-bestperf.log", is_dir := false }] =
      ModelSource.trainedFresh :=
  ⟨C8_checkpoint_discovery.1 [] (by decide),
   C8_checkpoint_discovery.2.1 _ { name := "old-checkpoint-bestperf", is_dir := true }
     (by decide) (by decide),
   C8_checkpoint_discovery.2.2 _ { name := "checkpoint-bestperf.log", is_dir := false }
     (by decide) (by decide)⟩

/-- C6: resetting any session leaves the chat history and first-turn flag
exactly equal to those of a freshly constructed session with the same
`converse_mode` (seeded user/assistant preamble pair when `converse_mode` is
off, empty when on), resets the flag per the `converse_mode` setting, and
leaves the model and tokenizer handles untouched. -/
theorem C6_reset_matches_fresh_construction (s : SessionState) :
    (clear_history s).chat_history =
      (init_session s.converse_mode s.model s.tokenizer).chat_history ∧
    (clear_history s).pastfirst =
      (init_session s.converse_mode s.model s.tokenizer).pastfirst ∧
    (clear_history s).converse_mode = s.converse_mode ∧
    (clear_history s).model = s.model ∧
    (clear_history s).tokenizer = s.tokenizer ∧
    ((clear_history s).pastfirst = false ↔ s.converse_mode = false) := by
  rcases s with ⟨cm, ch, pf, m, t⟩
  cases cm <;> simp [clear_history, init_session]

/-- Unfolding one step of a session-operation sequence. -/
theorem run_ops_cons (s : SessionState) (op : SessionOp) (ops : List SessionOp) :
    run_ops s (op :: ops) = run_ops (step s op) ops :=
  rfl

/-- No session operation changes `converse_mode`. -/
theorem step_converse (s : SessionState) (op : SessionOp) :
    (step s op).converse_mode = s.converse_mode := by
  cases op with
  | gen O u => exact generate_snd_converse O s u
  | reset =>
      rcases s with ⟨cm, ch, pf, m, t⟩
      cases cm <;> simp [step, clear_history]

/-- Under a sequence consisting only of `generate` turns, a set first-turn
flag stays set. -/
theorem run_ops_gen_only_pastfirst :
    ∀ (ops : List SessionOp) (s : SessionState),
      ops.all SessionOp.isGen = true → s.pastfirst = true →
      (run_ops s ops).pastfirst = true := by
  intro ops
  induction ops with
  | nil => intro s _ h; exact h
  | cons op rest ih =>
      intro s hall hpf
      rw [run_ops_cons]
      simp only [List.all_cons, Bool.and_eq_true] at hall
      cases op with
      | gen O u => exact ih (step s (SessionOp.gen O u)) hall.2 (generate_snd_pastfirst O s u)
      | reset => simp [SessionOp.isGen] at hall

/-- In a converse-mode session the first-turn flag stays set under every
sequence of operations, resets included. -/
theorem run_ops_converse_true_pastfirst :
    ∀ (ops : List SessionOp) (s : SessionState),
      s.converse_mode = true → s.pastfirst = true →
      (run_ops s ops).pastfirst = true ∧ (run_ops s ops).converse_mode = true := by
  intro ops
  induction ops with
  | nil => intro s hcm hpf; exact ⟨hpf, hcm⟩
  | cons op rest ih =>
      intro s hcm hpf
      rw [run_ops_cons]
      refine ih (step s op) (by rw [step_converse]; exact hcm) ?_
      cases op with
      | gen O u => exact generate_snd_pastfirst O s u
      | reset =>
          rcases s with ⟨cm, ch, pf, m, t⟩
          cases cm
          · cases hcm
          · simp [step, clear_history]

/-- C7: the `pastfirst` flag is monotonic — once set it never clears under
any sequence of `generate` calls; a reset clears it exactly when
`converse_mode` is disabled; and when `converse_mode` is enabled the flag is
set from construction and remains set under every sequence of operations,
resets included. -/
theorem C7_pastfirst_monotone :
    (∀ (s : SessionState) (ops : List SessionOp),
        ops.all SessionOp.isGen = true → s.pastfirst = true →
        (run_ops s ops).pastfirst = true) ∧
    (∀ s : SessionState, ((clear_history s).pastfirst = false ↔ s.converse_mode = false)) ∧
    (∀ m t : Nat, (init_session true m t).pastfirst = true) ∧
    (∀ (m t : Nat) (ops : List SessionOp),
        (run_ops (init_session true m t) ops).pastfirst = true) := by
  refine ⟨fun s ops hall hpf => run_ops_gen_only_pastfirst ops s hall hpf, ?_, ?_, ?_⟩
  · intro s
    rcases s with ⟨cm, ch, pf, m, t⟩
    cases cm <;> simp [clear_history]
  · intro m t
    rfl
  · intro m t ops
    exact (run_ops_converse_true_pastfirst ops (init_session true m t) rfl rfl).1

/-- C7 witness: the flag survives a two-turn generate sequence from a
converse-mode session; a reset on a non-converse session clears it; a
converse-mode construction sets it; and it survives a reset-then-generate
sequence in converse mode. -/
theorem C7_witness :
    (run_ops s_conv [SessionOp.gen O_ok "a", SessionOp.gen O_fail "b"]).pastfirst = true ∧
    ((clear_history s_fresh).pastfirst = false ↔ s_fresh.converse_mode = false) ∧
    (init_session true 0 0).pastfirst = true ∧
    (run_ops (init_session true 0 0) [SessionOp.reset, SessionOp.gen O_fail "x"]).pastfirst
      = true :=
  ⟨C7_pastfirst_monotone.1 s_conv [SessionOp.gen O_ok "a", SessionOp.gen O_fail "b"] rfl rfl,
   C7_pastfirst_monotone.2.1 s_fresh,
   C7_pastfirst_monotone.2.2.1 0 0,
   C7_pastfirst_monotone.2.2.2 0 0 [SessionOp.reset, SessionOp.gen O_fail "x"]⟩

/-- A string is a character-prefix of itself followed by anything. -/
theorem strDataPre (a b : String) : a.data <+: (a ++ b).data :=
  ⟨b.data, (String.data_append a b).symm⟩

/-- A character-prefix survives appending on the right. -/
theorem strDataPreExt {a s : String} (h : a.data <+: s.data) (t : String) :
    a.data <+: (s ++ t).data := by
  rcases h with ⟨w, hw⟩
  refine ⟨w ++ t.data, ?_⟩
  rw [String.data_append, ← hw, List.append_assoc]

/-- A string is a character-suffix of anything followed by itself. -/
theorem strDataSufSelf (a b : String) : b.data <:+ (a ++ b).data :=
  ⟨a.data, (String.data_append a b).symm⟩

/-- The append of the last two of three appended strings is a
character-suffix of the whole. -/
theorem strDataSufAssoc (x c u : String) : (c ++ u).data <:+ ((x ++ c) ++ u).data := by
  refine ⟨x.data, ?_⟩
  rw [String.data_append, String.data_append, String.data_append, List.append_assoc]

/-- A character-suffix is in particular a contiguous-substring occurrence. -/
theorem sufIsInf {b : String} {l : List Char} (h : b.data <:+ l) : b.data <:+: l := by
  rcases h with ⟨x, hx⟩
  exact ⟨x, [], by simp [hx]⟩

/-- A contiguous-substring occurrence survives appending on the right. -/
theorem strDataInfExtR {b s : String} (h : b.data <:+: s.data) (t : String) :
    b.data <:+: (s ++ t).data := by
  rcases h with ⟨x, y, hxy⟩
  refine ⟨x, y ++ t.data, ?_⟩
  rw [String.data_append, ← hxy]
  simp [List.append_assoc]

/-- C3: on the first turn of a `converse_mode=False` session the appended
user message (as fed through the chat template to the model) is the
augmented prompt: it starts with the fixed domain preamble, contains the
retriever's top-1 result whenever one exists, and ends with the conversion
instruction wrapping the user input; a missing retrieval result is
non-fatal — the prompt merely omits the context block and the call still
completes whenever generation itself succeeds; and on every later turn the
appended user message is the user input verbatim. -/
theorem C3_first_turn_augmentation (O : LLMOracle) (s : SessionState) (u : String)
    (h : s.pastfirst = false) :
    (((generate O s u).2).chat_history.take (s.chat_history.length + 1) =
        s.chat_history ++ [{ role := Role.user, content := first_prompt O u }]) ∧
    ("Glayout strictsyntax is a electronic circuit layout command language.\n").data <+:
        (first_prompt O u).data ∧
    (∀ c, O.rag_query u = some c → c.data <:+: (first_prompt O u).data) ∧
    (("Convert the following prompt to Glayout strictsyntax:\n" ++ u).data <:+
        (first_prompt O u).data) ∧
    (O.rag_query u = none →
      first_prompt O u =
        "Glayout strictsyntax is a electronic circuit layout command language.\n" ++
        "Convert the following prompt to Glayout strictsyntax:\n" ++ u) ∧
    (O.rag_query u = none → ∀ outs,
      O.model_generate (O.apply_chat_template (s.chat_history ++
          [{ role := Role.user, content := first_prompt O u }])) 1024 = some outs →
      (generate O s u).1.isSome = true) ∧
    (∀ (s₂ : SessionState) (u₂ : String), s₂.pastfirst = true →
      ((generate O s₂ u₂).2).chat_history.take (s₂.chat_history.length + 1) =
        s₂.chat_history ++ [{ role := Role.user, content := u₂ }]) := by
  have hfp : full_prompt O s u = first_prompt O u := by simp [full_prompt, h]
  refine ⟨?_, ?_, ?_, ?_, ?_, ?_, ?_⟩
  · have ht := generate_snd_history_take O s u
    rwa [hfp] at ht
  · rcases hq : O.rag_query u with _ | c
    · simp only [first_prompt, hq]
      exact strDataPreExt (strDataPre _ _) _
    · simp only [first_prompt, hq]
      exact strDataPreExt (strDataPreExt (strDataPreExt (strDataPreExt (strDataPre _ _) _) _) _) _
  · intro c hq
    simp only [first_prompt, hq]
    exact strDataInfExtR (strDataInfExtR (strDataInfExtR (sufIsInf (strDataSufSelf _ _)) _) _) _
  · rcases hq : O.rag_query u with _ | c
    · simp only [first_prompt, hq]
      exact strDataSufAssoc _ _ _
    · simp only [first_prompt, hq]
      exact strDataSufAssoc _ _ _
  · intro hq
    simp only [first_prompt, hq]
  · intro hq outs hgen
    simp only [generate, hfp, hgen]
    rfl
  · intro s₂ u₂ h₂
    have h2 : full_prompt O s₂ u₂ = u₂ := by simp [full_prompt, h₂]
    have ht := generate_snd_history_take O s₂ u₂
    rwa [h2] at ht

/-- C3 witness: with a retriever knowing `"inverter"` (top-1 `"ctx-A"`), the
first turn of a fresh non-converse session appends the augmented prompt,
whose text contains `"ctx-A"`; a turn on a session already past the first
turn appends `"nand gate"` verbatim. -/
theorem C3_witness :
    ((generate O_ok s_fresh "inverter").2).chat_history.take
        (s_fresh.chat_history.length + 1) =
      s_fresh.chat_history ++
        [{ role := Role.user, content := first_prompt O_ok "inverter" }] ∧
    ("ctx-A").data <:+: (first_prompt O_ok "inverter").data ∧
    ((generate O_ok s_conv "nand gate").2).chat_history.take
        (s_conv.chat_history.length + 1) =
      s_conv.chat_history ++ [{ role := Role.user, content := "nand gate" }] :=
  ⟨(C3_first_turn_augmentation O_ok s_fresh "inverter" rfl).1,
   (C3_first_turn_augmentation O_ok s_fresh "inverter" rfl).2.2.1 "ctx-A" (by decide),
   (C3_first_turn_augmentation O_ok s_fresh "inverter" rfl).2.2.2.2.2.2 s_conv
     "nand gate" rfl⟩

/-- C9: the plain-completion helper defaults to a fixed budget of 1000 new
tokens and decodes the whole output row with special tokens stripped; the
session's `generate` uses the distinct fixed budget 1024 and decodes only
the tokens beyond the input length, dropping the final token position and
retaining special tokens. -/
theorem C9_generation_budgets_and_decode :
    (∀ (O : LLMOracle) (p : String), run_llm_normal O p = run_llm_normal_with O p 1000) ∧
    (1000 : Nat) ≠ 1024 ∧
    (∀ (O : LLMOracle) (p : String) (n : Nat),
        run_llm_normal_with O p n =
          (O.model_generate (O.apply_chat_template [{ role := Role.user, content := p }])
              n).map
            (fun outputs => O.decode outputs true)) ∧
    (∀ (O : LLMOracle) (s : SessionState) (u : String), s.pastfirst = true →
        (generate O s u).1 =
          (O.model_generate
              (O.apply_chat_template
                (s.chat_history ++ [{ role := Role.user, content := u }]))
              1024).map
            (fun outputs => O.decode
              ((outputs.take (outputs.length - 1)).drop
                (O.apply_chat_template
                  (s.chat_history ++ [{ role := Role.user, content := u }])).length)
              false)) := by
  refine ⟨fun O p => rfl, by decide, ?_, ?_⟩
  · intro O p n
    simp only [run_llm_normal_with]
    cases O.model_generate (O.apply_chat_template [{ role := Role.user, content := p }]) n <;>
      rfl
  · intro O s u hpf
    have hfp : full_prompt O s u = u := by simp [full_prompt, hpf]
    simp only [generate, hfp]
    cases O.model_generate
        (O.apply_chat_template (s.chat_history ++ [{ role := Role.user, content := u }]))
        1024 <;>
      simp [dropLast_drop_eq]

/-- C9 witness: on a session past the first turn, a concrete `generate` call
equals the 1024-budget generation decoded over exactly the
input-length-to-last-but-one span with special tokens retained. -/
theorem C9_witness :
    (generate O_ok s_conv "hi").1 =
      (O_ok.model_generate
          (O_ok.apply_chat_template
            (s_conv.chat_history ++ [{ role := Role.user, content := "hi" }]))
          1024).map
        (fun outputs => O_ok.decode
          ((outputs.take (outputs.length - 1)).drop
            (O_ok.apply_chat_template
              (s_conv.chat_history ++ [{ role := Role.user, content := "hi" }])).length)
          false) :=
  C9_generation_budgets_and_decode.2.2.2 O_ok s_conv "hi" rfl

/-- C10: on a first turn of a non-converse session, `generate` raises the
first-turn flag before invoking generation; hence even when that generation
raises, the resulting session is permanently past the first turn, and a
retried call with the same input appends the input verbatim — no domain
preamble and no retrieval augmentation. -/
theorem C10_flag_set_before_generation (O : LLMOracle) (s : SessionState) (u : String)
    (hcm : s.converse_mode = false) (hpf : s.pastfirst = false)
    (hfail : (generate O s u).1 = none) :
    ((generate O s u).2).pastfirst = true ∧
    full_prompt O ((generate O s u).2) u = u ∧
    ((generate O ((generate O s u).2) u).2).chat_history.take
        (((generate O s u).2).chat_history.length + 1) =
      ((generate O s u).2).chat_history ++ [{ role := Role.user, content := u }] := by
  have h1 := generate_snd_pastfirst O s u
  have h2 : full_prompt O ((generate O s u).2) u = u := by
    simp [full_prompt, h1]
  refine ⟨h1, h2, ?_⟩
  have ht := generate_snd_history_take O ((generate O s u).2) u
  rwa [h2] at ht

/-- C10 witness: a failing first generation on a fresh non-converse session
leaves the flag set, and the retried call with the same input appends that
input verbatim. -/
theorem C10_witness :
    ((generate O_fail s_fresh "ring oscillator").2).pastfirst = true ∧
    full_prompt O_fail ((generate O_fail s_fresh "ring oscillator").2) "ring oscillator" =
      "ring oscillator" ∧
    ((generate O_fail ((generate O_fail s_fresh "ring oscillator").2)
          "ring oscillator").2).chat_history.take
        (((generate O_fail s_fresh "ring oscillator").2).chat_history.length + 1) =
      ((generate O_fail s_fresh "ring oscillator").2).chat_history ++
        [{ role := Role.user, content := "ring oscillator" }] :=
  C10_flag_set_before_generation O_fail s_fresh "ring oscillator" rfl rfl (by decide)

end TrainAndRun
